import Mathlib

/-!
Verification of the guida.js spotlight-onboarding library: a shallow
embedding of its geometry engine (cutout and tooltip placement), its
spotlight renderer (polygon clip versus rounded SVG mask), and its step
sequencer (start / nextStep / previousStep / goToStep / complete / close /
cleanup / reset together with the persisted completion flag), followed by
theorems settling the frozen claims about the specification.

Numbers are modelled as rationals (DOM coordinates are JS doubles used
here only through +, -, /2, min, max, so exact rational arithmetic agrees
with the source on every input we reason about).  Timer callbacks
(setTimeout) are modelled by pending-task counters on the state plus an
explicit function that fires one pending settle timer.  The DOM is
modelled by an environment giving, for each selector, whether a target
exists, its bounding rectangle, the measured tooltip height and the
viewport size.  localStorage is an association list threaded through the
state.
-/

namespace Guida

/-- Tooltip placement relative to the target (src types: TooltipPosition). -/
inductive TooltipPosition where
  | top
  | bottom
  | left
  | right
deriving DecidableEq

/-- Interaction mode of a step (src types: StepAction). -/
inductive StepAction where
  | click
  | observe
deriving DecidableEq

/-- Per-step spotlight override (src types: step.spotlight). -/
structure SpotlightOptions where
  borderRadius : Option ℚ
  padding : Option ℚ
deriving DecidableEq

/-- One step of the tour (src types: OnboardingStep). -/
structure OnboardingStep where
  target : String
  title : String
  description : String
  position : TooltipPosition
  action : StepAction
  highlight : Bool
  skipable : Bool
  spotlight : Option SpotlightOptions
deriving DecidableEq

/-- Global spotlight defaults after config merging. -/
structure SpotlightConfig where
  borderRadius : ℚ
  padding : ℚ
  backdropOpacity : ℚ
deriving DecidableEq

/-- Merged configuration (mergeConfig output: every field resolved). -/
structure Config where
  steps : List OnboardingStep
  storageKey : String
  autoStart : Bool
  startDelay : ℕ
  spotlight : SpotlightConfig
deriving DecidableEq

/-- A DOM bounding rectangle (getBoundingClientRect result). -/
structure Rect where
  top : ℚ
  left : ℚ
  right : ℚ
  bottom : ℚ
  width : ℚ
  height : ℚ
deriving DecidableEq

/-- Viewport dimensions (window.innerWidth / window.innerHeight). -/
structure Viewport where
  innerWidth : ℚ
  innerHeight : ℚ
deriving DecidableEq

/-- The cutout rectangle carved out of the backdrop. -/
structure Cutout where
  x1 : ℚ
  y1 : ℚ
  x2 : ℚ
  y2 : ℚ
deriving DecidableEq

/-- Cutout coordinates computed inside updateClipPath:
x1 = Math.max(0, rect.left - padding), y1 = Math.max(0, rect.top - padding),
x2 = Math.min(window.innerWidth, rect.right + padding),
y2 = Math.min(window.innerHeight, rect.bottom + padding). -/
def computeCutout (rect : Rect) (padding : ℚ) (vp : Viewport) : Cutout :=
  { x1 := max 0 (rect.left - padding),
    y1 := max 0 (rect.top - padding),
    x2 := min vp.innerWidth (rect.right + padding),
    y2 := min vp.innerHeight (rect.bottom + padding) }

/-- The spec's own wording of the cutout contract: expand the rect by
padding pixels on all sides, then clamp x1, y1 to be at least 0 and
x2, y2 to be at most the viewport width and height respectively.  Written
from the spec sentence, to be compared with computeCutout. -/
def cutoutSpecContract (rect : Rect) (padding : ℚ) (vp : Viewport) : Cutout :=
  let expandedLeft := rect.left - padding
  let expandedTop := rect.top - padding
  let expandedRight := rect.right + padding
  let expandedBottom := rect.bottom + padding
  { x1 := if expandedLeft < 0 then 0 else expandedLeft,
    y1 := if expandedTop < 0 then 0 else expandedTop,
    x2 := if vp.innerWidth < expandedRight then vp.innerWidth else expandedRight,
    y2 := if vp.innerHeight < expandedBottom then vp.innerHeight else expandedBottom }

/-- Raw (pre-clamp) tooltip coordinates from the switch in showTooltip. -/
def tooltipRawPosition (rect : Rect) (pos : TooltipPosition)
    (tooltipWidth tooltipHeight : ℚ) : ℚ × ℚ :=
  match pos with
  | .top => (rect.left + rect.width / 2 - tooltipWidth / 2, rect.top - tooltipHeight - 20)
  | .bottom => (rect.left + rect.width / 2 - tooltipWidth / 2, rect.bottom + 20)
  | .left => (rect.left - tooltipWidth - 20, rect.top + rect.height / 2 - tooltipHeight / 2)
  | .right => (rect.right + 20, rect.top + rect.height / 2 - tooltipHeight / 2)

/-- Final tooltip coordinates: the raw switch result clamped to keep the
tooltip inside the viewport,
left = Math.max(20, Math.min(left, window.innerWidth - tooltipWidth - 20)),
top = Math.max(20, Math.min(top, window.innerHeight - tooltipHeight - 20)). -/
def computeTooltipPosition (rect : Rect) (pos : TooltipPosition)
    (tooltipWidth tooltipHeight : ℚ) (vp : Viewport) : ℚ × ℚ :=
  let raw := tooltipRawPosition rect pos tooltipWidth tooltipHeight
  ( max 20 (min raw.1 (vp.innerWidth - tooltipWidth - 20)),
    max 20 (min raw.2 (vp.innerHeight - tooltipHeight - 20)) )

/-- What the renderer applies to the backdrop element: either a sharp
polygon clip-path, or a full-viewport dimmed SVG layer masked by a
rounded-rectangle hole (createRoundedSpotlight sets clipPath to none and
installs the SVG mask, so the two constructors are mutually exclusive). -/
inductive BackdropPaint where
  | polygonClip (c : Cutout)
  | roundedMask (c : Cutout) (radius : ℚ)
deriving DecidableEq

/-- Whether the paint is the masked (rounded) construct rather than a clip-path. -/
def BackdropPaint.usesMask : BackdropPaint → Bool
  | .polygonClip _ => false
  | .roundedMask _ _ => true

/-- createRoundedSpotlight: width = x2 - x1, height = y2 - y1,
maxRadius = Math.min(width / 2, height / 2, borderRadius); the backdrop
becomes a full-viewport dim rectangle masked by a rounded-rect hole with
corner radii rx = ry = maxRadius. -/
def createRoundedSpotlight (c : Cutout) (borderRadius : ℚ) : BackdropPaint :=
  let width := c.x2 - c.x1
  let height := c.y2 - c.y1
  let maxRadius := min (min (width / 2) (height / 2)) borderRadius
  .roundedMask c maxRadius

/-- The dispatch at the end of updateClipPath: borderRadius > 0 uses the
rounded SVG mask, otherwise the sharp polygon clip-path. -/
def paintBackdrop (c : Cutout) (borderRadius : ℚ) : BackdropPaint :=
  if 0 < borderRadius then createRoundedSpotlight c borderRadius
  else .polygonClip c

/-- Border radius resolved for a step: step override if present, else the
global spotlight default (stepSpotlight?.borderRadius ?? global). -/
def resolvedBorderRadius (cfg : Config) (step : Option OnboardingStep) : ℚ :=
  ((step.bind OnboardingStep.spotlight).bind SpotlightOptions.borderRadius).getD
    cfg.spotlight.borderRadius

/-- Padding resolved for a step: step override if present, else global. -/
def resolvedPadding (cfg : Config) (step : Option OnboardingStep) : ℚ :=
  ((step.bind OnboardingStep.spotlight).bind SpotlightOptions.padding).getD
    cfg.spotlight.padding

/-- updateClipPath: resolve radius and padding, compute the cutout from the
live rect and viewport, then paint (mask when radius positive, else clip). -/
def updateClipPath (cfg : Config) (step : Option OnboardingStep)
    (rect : Rect) (vp : Viewport) : BackdropPaint :=
  paintBackdrop (computeCutout rect (resolvedPadding cfg step) vp)
    (resolvedBorderRadius cfg step)

/-- Which buttons the tooltip template of showTooltip renders:
previous when not the first step, next when the action is observe and not
the last step, skip when the step is skipable, close always. -/
structure ButtonFlags where
  previous : Bool
  next : Bool
  skip : Bool
  close : Bool
deriving DecidableEq

/-- Button visibility computed inside showTooltip from
isFirstStep = currentStep === 0 and
isLastStep = currentStep === steps.length - 1. -/
def tooltipButtonFlags (cfg : Config) (currentStep : ℕ)
    (step : OnboardingStep) : ButtonFlags :=
  let isFirstStep := currentStep == 0
  let isLastStep := currentStep == cfg.steps.length - 1
  { previous := !isFirstStep,
    next := step.action == .observe && !isLastStep,
    skip := step.skipable,
    close := true }

/-- Events and callback invocations, logged in emission order (the emit
method and the callbacks invoked right after each emit). -/
inductive Ev where
  | start
  | complete
  | close
  | stepChange (stepIndex : ℕ) (step : OnboardingStep)
  | stepNavigation (direction : String) (fromStep toStep : ℕ)
      (fromStepConfig : Option OnboardingStep)
  | warnTargetMissing (target : String)
  | cbStart
  | cbComplete
  | cbClose
  | cbStepChange (stepIndex : ℕ) (step : OnboardingStep)
deriving DecidableEq

/-- One when the event is the start event, else zero. -/
def startWeight : Ev → ℕ
  | .start => 1
  | _ => 0

/-- One when the event is the onStart callback invocation, else zero. -/
def cbStartWeight : Ev → ℕ
  | .cbStart => 1
  | _ => 0

/-- How many start events a log holds. -/
def countStart (l : List Ev) : ℕ := (l.map startWeight).sum

/-- How many onStart callback invocations a log holds. -/
def countCbStart (l : List Ev) : ℕ := (l.map cbStartWeight).sum

/-- localStorage.getItem on the association-list store. -/
def storeGet : List (String × String) → String → Option String
  | [], _ => none
  | (k2, v) :: rest, k => if k2 = k then some v else storeGet rest k

/-- localStorage.removeItem. -/
def storeRemove (st : List (String × String)) (k : String) :
    List (String × String) :=
  st.filter (fun p => p.1 != k)

/-- localStorage.setItem (overwrites any previous value of the key). -/
def storeSet (st : List (String × String)) (k v : String) :
    List (String × String) :=
  (k, v) :: storeRemove st k

/-- The DOM and layout environment a tour runs against: whether each
selector resolves to an element, that element's bounding rectangle, the
tooltip height measured after the content is rendered, and the viewport. -/
structure Env where
  hasTarget : String → Bool
  rectOf : String → Rect
  tooltipHeight : ℚ
  viewport : Viewport

/-- The mutable runtime state of one instance (src OnboardingState), plus
the threaded localStorage, the event log, and counters for pending
setTimeout callbacks (the 300ms settle renders, the 3000ms post-completion
cleanup, and the delayed start calls of autoStart and restart). -/
structure GuidaState where
  currentStep : ℕ
  isActive : Bool
  isCompleted : Bool
  overlay : Bool
  tooltip : Bool
  tooltipVisible : Bool
  tooltipButtons : Option ButtonFlags
  tooltipPos : Option (ℚ × ℚ)
  currentHighlightedElement : Option String
  currentStepConfig : Option OnboardingStep
  resizeHandler : Bool
  scrollHandler : Bool
  backdropPaint : Option BackdropPaint
  store : List (String × String)
  events : List Ev
  pendingShows : ℕ
  pendingCleanups : ℕ
  pendingStarts : ℕ
deriving DecidableEq

/-- Fresh runtime state created by the constructor, over a given store. -/
def initState (store : List (String × String)) : GuidaState :=
  { currentStep := 0, isActive := false, isCompleted := false,
    overlay := false, tooltip := false, tooltipVisible := false,
    tooltipButtons := none, tooltipPos := none,
    currentHighlightedElement := none, currentStepConfig := none,
    resizeHandler := false, scrollHandler := false, backdropPaint := none,
    store := store, events := [], pendingShows := 0, pendingCleanups := 0,
    pendingStarts := 0 }

/-- Append one event to the log (emit, and the callback invocations). -/
def emit (e : Ev) (s : GuidaState) : GuidaState :=
  { s with events := s.events ++ [e] }

/-- markAsCompleted: set the in-memory flag and persist the storage key. -/
def markAsCompleted (cfg : Config) (s : GuidaState) : GuidaState :=
  { s with
        isCompleted := true,
        store := storeSet s.store cfg.storageKey "true" }

/-- isCompleted: read the persisted flag from the store. -/
def isCompleted (cfg : Config) (s : GuidaState) : Bool :=
  storeGet s.store cfg.storageKey == some "true"

/-- reset: remove the persisted flag and clear the in-memory copy. -/
def reset (cfg : Config) (s : GuidaState) : GuidaState :=
  { s with
        store := storeRemove s.store cfg.storageKey,
        isCompleted := false }

/-- hideTooltip: remove the visible class when the tooltip node exists. -/
def hideTooltip (s : GuidaState) : GuidaState :=
  if s.tooltip then { s with tooltipVisible := false } else s

/-- clearHighlights: drop the highlight classes and, when the overlay's
backdrop exists, reset its clip-path to none. -/
def clearHighlights (s : GuidaState) : GuidaState :=
  if s.overlay then { s with backdropPaint := none } else s

/-- showCompletionMessage: replace the tooltip content by the completion
message (no buttons) and make it visible, when the tooltip node exists. -/
def showCompletionMessage (s : GuidaState) : GuidaState :=
  if s.tooltip then
    { s with tooltipVisible := true, tooltipButtons := none }
  else s

/-- complete: clear highlights, show the completion message, persist the
flag, emit complete and invoke onComplete, then schedule cleanup (3000ms). -/
def complete (cfg : Config) (s : GuidaState) : GuidaState :=
  let s1 := clearHighlights s
  let s2 := showCompletionMessage s1
  let s3 := markAsCompleted cfg s2
  let s4 := emit .cbComplete (emit .complete s3)
  { s4 with pendingCleanups := s4.pendingCleanups + 1 }

/-- highlightElement: record the highlighted target (or none), and paint
the backdrop through updateClipPath when highlighting, else reset it. -/
def highlightElement (cfg : Config) (env : Env) (target : String)
    (shouldHighlight : Bool) (step : Option OnboardingStep)
    (s : GuidaState) : GuidaState :=
  let s1 := { s with
        currentHighlightedElement :=
        if shouldHighlight then some target else none }
  if shouldHighlight && s1.overlay then
    { s1 with
          backdropPaint :=
          some (updateClipPath cfg step (env.rectOf target) env.viewport) }
  else if s1.overlay then
    { s1 with backdropPaint := none }
  else s1

/-- showTooltip: when the tooltip node exists, render the content (with
the button flags), measure the height, position with the 320px width and
the viewport clamp, and make the tooltip visible. -/
def showTooltip (cfg : Config) (env : Env) (target : String)
    (step : OnboardingStep) (s : GuidaState) : GuidaState :=
  if s.tooltip then
    let rect := env.rectOf target
    let tooltipWidth : ℚ := 320
    let flags := tooltipButtonFlags cfg s.currentStep step
    let pos := computeTooltipPosition rect step.position tooltipWidth
      env.tooltipHeight env.viewport
    { s with
          tooltipVisible := true, tooltipButtons := some flags,
          tooltipPos := some pos }
  else s

/-- nextStep: read the departing step config, increment the index with no
upper clamp, hide the tooltip, emit the navigation event, and schedule the
settle-delay render (300ms). -/
def nextStep (cfg : Config) (s : GuidaState) : GuidaState :=
  let fromStepConfig := cfg.steps[s.currentStep]?
  let s1 := { s with currentStep := s.currentStep + 1 }
  let s2 := hideTooltip s1
  let s3 := emit (.stepNavigation "next" (s1.currentStep - 1) s1.currentStep
    fromStepConfig) s2
  { s3 with pendingShows := s3.pendingShows + 1 }

/-- previousStep: only when the index is above 0, decrement, hide the
tooltip, emit the navigation event, and schedule the settle render. -/
def previousStep (cfg : Config) (s : GuidaState) : GuidaState :=
  if 0 < s.currentStep then
    let fromStepConfig := cfg.steps[s.currentStep]?
    let s1 := { s with currentStep := s.currentStep - 1 }
    let s2 := hideTooltip s1
    let s3 := emit (.stepNavigation "previous" (s1.currentStep + 1)
      s1.currentStep fromStepConfig) s2
    { s3 with pendingShows := s3.pendingShows + 1 }
  else s

/-- goToStep: only when the requested index lies in [0, steps.length),
jump to it, hide the tooltip, and schedule the settle render. -/
def goToStep (cfg : Config) (stepIndex : ℤ) (s : GuidaState) : GuidaState :=
  if 0 ≤ stepIndex ∧ stepIndex < (cfg.steps.length : ℤ) then
    let s1 := { s with currentStep := stepIndex.toNat }
    let s2 := hideTooltip s1
    { s2 with pendingShows := s2.pendingShows + 1 }
  else s

/-- showStep: past the end of the list invoke complete; otherwise record
the step config and, when the target exists, emit stepChange and the
callback, highlight, and show the tooltip; when the target is missing,
warn and auto-advance through nextStep. -/
def showStep (cfg : Config) (env : Env) (stepIndex : ℕ)
    (s : GuidaState) : GuidaState :=
  if h : stepIndex < cfg.steps.length then
    let step := cfg.steps.get ⟨stepIndex, h⟩
    let s1 := { s with currentStepConfig := some step }
    if env.hasTarget step.target then
      let s2 := emit (.cbStepChange stepIndex step)
        (emit (.stepChange stepIndex step) s1)
      let s3 := highlightElement cfg env step.target step.highlight
        (some step) s2
      showTooltip cfg env step.target step s3
    else
      nextStep cfg (emit (.warnTargetMissing step.target) s1)
  else complete cfg s

/-- Firing of one pending settle timer: run showStep on the index the
state holds at that moment (the timer callback reads this.state.currentStep
when it fires, not when it was scheduled). -/
def fireSettle (cfg : Config) (env : Env) (s : GuidaState) : GuidaState :=
  showStep cfg env s.currentStep { s with pendingShows := s.pendingShows - 1 }

/-- createOverlay: fresh overlay with backdrop (no clip yet) and a fresh,
not yet visible tooltip node. -/
def createOverlay (s : GuidaState) : GuidaState :=
  { s with
        overlay := true, tooltip := true, tooltipVisible := false,
        tooltipButtons := none, tooltipPos := none, backdropPaint := none }

/-- setupResizeHandler: install the window resize listener and the
capture-phase scroll listeners. -/
def setupResizeHandler (s : GuidaState) : GuidaState :=
  { s with resizeHandler := true, scrollHandler := true }

/-- start: no-op when already active or the step list is empty; otherwise
become active at index 0, create the overlay, install the listeners, show
step 0, then emit start and invoke onStart. -/
def start (cfg : Config) (env : Env) (s : GuidaState) : GuidaState :=
  if s.isActive || cfg.steps.length == 0 then s
  else
    let s1 := { s with isActive := true, currentStep := 0 }
    let s2 := setupResizeHandler (createOverlay s1)
    let s3 := showStep cfg env s2.currentStep s2
    emit .cbStart (emit .start s3)

/-- cleanup: deactivate, clear highlights, remove the resize and scroll
listeners, remove the overlay and tooltip nodes, and null the element and
step-config references.  The step index is not touched. -/
def cleanup (s : GuidaState) : GuidaState :=
  let s1 := clearHighlights { s with isActive := false }
  { s1 with
        resizeHandler := false, scrollHandler := false,
        overlay := false, tooltip := false, tooltipVisible := false,
        tooltipButtons := none, tooltipPos := none, backdropPaint := none,
        currentHighlightedElement := none, currentStepConfig := none }

/-- close: persist completion, emit close and invoke onClose, then run
cleanup immediately.  There is no guard on the active flag. -/
def close (cfg : Config) (s : GuidaState) : GuidaState :=
  cleanup (emit .cbClose (emit .close (markAsCompleted cfg s)))

/-- restart: reset the persisted flag, clean up, and schedule a delayed
start (500ms). -/
def restart (cfg : Config) (s : GuidaState) : GuidaState :=
  let s1 := cleanup (reset cfg s)
  { s1 with pendingStarts := s1.pendingStarts + 1 }

/-- Constructor plus init: fresh state over the given store; when
autoStart is set and the tour is not already completed, schedule a delayed
start. -/
def construct (cfg : Config) (store : List (String × String)) : GuidaState :=
  let s := initState store
  if cfg.autoStart && !(isCompleted cfg s) then
    { s with pendingStarts := s.pendingStarts + 1 }
  else s

/-- getCurrentStep: the index and the step it denotes when in range. -/
def getCurrentStep (cfg : Config) (s : GuidaState) :
    ℕ × Option OnboardingStep :=
  (s.currentStep, cfg.steps[s.currentStep]?)

/-- A concrete observe-mode first step used for concrete evaluations. -/
def exStep1 : OnboardingStep :=
  { target := "#step1", title := "Step 1",
    description := "First step description", position := .bottom,
    action := .observe, highlight := true, skipable := false,
    spotlight := none }

/-- A concrete click-mode second step used for concrete evaluations. -/
def exStep2 : OnboardingStep :=
  { target := "#step2", title := "Step 2",
    description := "Second step description", position := .top,
    action := .click, highlight := true, skipable := true,
    spotlight := none }

/-- A concrete two-step merged configuration with the default storage key,
spotlight defaults and autoStart disabled. -/
def exCfg : Config :=
  { steps := [exStep1, exStep2], storageKey := "guida-js-completed",
    autoStart := false, startDelay := 1000,
    spotlight := { borderRadius := 8, padding := 8, backdropOpacity := 50 } }

/-- A concrete bounding rectangle (the one the repository tests mock). -/
def exRect : Rect :=
  { top := 100, left := 100, right := 200, bottom := 200,
    width := 100, height := 100 }

/-- A concrete environment: every selector resolves, every element sits at
exRect, the tooltip measures 200 pixels tall, jsdom default viewport. -/
def exEnv : Env :=
  { hasTarget := fun _ => true, rectOf := fun _ => exRect,
    tooltipHeight := 200,
    viewport := { innerWidth := 1024, innerHeight := 768 } }

/-- A concrete mid-tour state: active with overlay and tooltip attached. -/
def exActiveState : GuidaState :=
  { initState [] with isActive := true, overlay := true, tooltip := true }

end Guida

namespace Guida

/-- C3: the cutout computation agrees with the spec contract everywhere,
yields the documented values on the concrete rect and viewport, and clamps
x1 to 0 whenever the padded left edge would be negative. -/
theorem computeCutout_contract (rect : Rect) (padding : ℚ) (vp : Viewport)
    (hneg : rect.left - padding < 0) :
    computeCutout rect padding vp = cutoutSpecContract rect padding vp ∧
    computeCutout { top := 100, left := 100, right := 200, bottom := 140,
                    width := 100, height := 40 } 8
      { innerWidth := 1000, innerHeight := 800 }
      = { x1 := 92, y1 := 92, x2 := 208, y2 := 148 } ∧
    (computeCutout rect padding vp).x1 = 0 := by
  refine ⟨?_, by norm_num [computeCutout, max_def, min_def, Cutout.mk.injEq], ?_⟩
  · unfold computeCutout cutoutSpecContract
    have h1 : ∀ a : ℚ, max 0 a = if a < 0 then 0 else a := by
      intro a
      rcases lt_or_le a 0 with h | h
      · simp [max_eq_left h.le, h]
      · simp [max_eq_right h, not_lt.mpr h]
    have h2 : ∀ a b : ℚ, min a b = if a < b then a else b := by
      intro a b
      rcases lt_or_le a b with h | h
      · simp [min_eq_left h.le, h]
      · simp [min_eq_right h, not_lt.mpr h]
    simp only [h1, h2]
  · unfold computeCutout
    simp [max_eq_left hneg.le]

/-- Witness for computeCutout_contract at a rect whose padded left edge is
negative. -/
theorem computeCutout_contract_witness :
    (Rect.mk 100 3 200 140 197 40).left - 8 < 0 ∧
    (computeCutout (Rect.mk 100 3 200 140 197 40) 8
      (Viewport.mk 1000 800)).x1 = 0 :=
  ⟨by norm_num,
   (computeCutout_contract (Rect.mk 100 3 200 140 197 40) 8
     (Viewport.mk 1000 800) (by norm_num)).2.2⟩

/-- C4: the bottom placement computes left as the target's horizontal
centre minus half the tooltip width and top as the target's bottom plus a
20 pixel gap, each axis is then clamped by max 20 (min computed
(viewport - size - 20)); on the documented rect with tooltip width 320 the
pre-clamp left is -10 and, whenever the viewport is at least 330 wide, the
final left is 20. -/
theorem tooltip_bottom_position (rect : Rect) (w h : ℚ) (vp : Viewport)
    (hvw : 330 ≤ vp.innerWidth) :
    tooltipRawPosition rect .bottom w h
      = (rect.left + rect.width / 2 - w / 2, rect.bottom + 20) ∧
    computeTooltipPosition rect .bottom w h vp
      = ( max 20 (min (rect.left + rect.width / 2 - w / 2)
            (vp.innerWidth - w - 20)),
          max 20 (min (rect.bottom + 20) (vp.innerHeight - h - 20)) ) ∧
    (tooltipRawPosition
        { top := 100, left := 100, right := 200, bottom := 140,
          width := 100, height := 40 } .bottom 320 h).1 = -10 ∧
    (computeTooltipPosition
        { top := 100, left := 100, right := 200, bottom := 140,
          width := 100, height := 40 } .bottom 320 h vp).1 = 20 := by
  refine ⟨rfl, rfl, by norm_num [tooltipRawPosition], ?_⟩
  unfold computeTooltipPosition tooltipRawPosition
  have hraw : (100 : ℚ) + 100 / 2 - 320 / 2 = -10 := by norm_num
  simp only
  rw [hraw]
  have hmin : min (-10 : ℚ) (vp.innerWidth - 320 - 20) = -10 := by
    apply min_eq_left
    linarith
  rw [hmin]
  norm_num

/-- Witness for tooltip_bottom_position at the jsdom default viewport. -/
theorem tooltip_bottom_position_witness :
    (330 : ℚ) ≤ (Viewport.mk 1024 768).innerWidth ∧
    (computeTooltipPosition
        { top := 100, left := 100, right := 200, bottom := 140,
          width := 100, height := 40 } .bottom 320 200
        (Viewport.mk 1024 768)).1 = 20 :=
  ⟨by norm_num,
   (tooltip_bottom_position
     { top := 100, left := 100, right := 200, bottom := 140,
       width := 100, height := 40 } 320 200 (Viewport.mk 1024 768)
     (by norm_num)).2.2.2⟩

/-- C9: for every cutout and every requested radius greater than 0, the
painter clamps the radius to min (width / 2) (height / 2) requested and
produces the masked construct (a full-viewport dimmed layer with a
rounded-rectangle hole), not a clip-path. -/
theorem paintBackdrop_rounded (c : Cutout) (r : ℚ) (hr : 0 < r) :
    paintBackdrop c r
      = .roundedMask c (min (min ((c.x2 - c.x1) / 2) ((c.y2 - c.y1) / 2)) r) ∧
    (paintBackdrop c r).usesMask = true := by
  unfold paintBackdrop createRoundedSpotlight
  rw [if_pos hr]
  exact ⟨rfl, rfl⟩

/-- Witness for paintBackdrop_rounded at a concrete cutout and radius. -/
theorem paintBackdrop_rounded_witness :
    (0 : ℚ) < 12 ∧
    (paintBackdrop (Cutout.mk 92 92 208 148) 12).usesMask = true :=
  ⟨by norm_num, (paintBackdrop_rounded (Cutout.mk 92 92 208 148) 12 (by norm_num)).2⟩

/-- Setting a key makes it readable. -/
theorem storeGet_storeSet_self (st : List (String × String)) (k v : String) :
    storeGet (storeSet st k v) k = some v := by
  simp [storeSet, storeGet]

/-- Removing a key makes it unreadable. -/
theorem storeGet_storeRemove_self (st : List (String × String)) (k : String) :
    storeGet (storeRemove st k) k = none := by
  induction st with
  | nil => rfl
  | cons a t ih =>
    rcases eq_or_ne a.1 k with h | h
    · simpa [storeRemove, List.filter_cons, h] using ih
    · simpa [storeRemove, List.filter_cons, h, storeGet] using ih

/-- hideTooltip leaves every field but the visibility flag alone. -/
theorem hideTooltip_eq (s : GuidaState) :
    hideTooltip s
      = { s with tooltipVisible := if s.tooltip then false else s.tooltipVisible } := by
  obtain ⟨cs, ia, ic, ov, tt, tv, tb, tp, che, csc, rh, sh, bp, st, evs, ps, pc, pst⟩ := s
  unfold hideTooltip
  split <;> simp_all

/-- clearHighlights leaves every field but the backdrop paint alone. -/
theorem clearHighlights_eq (s : GuidaState) :
    clearHighlights s
      = { s with backdropPaint := if s.overlay then none else s.backdropPaint } := by
  obtain ⟨cs, ia, ic, ov, tt, tv, tb, tp, che, csc, rh, sh, bp, st, evs, ps, pc, pst⟩ := s
  unfold clearHighlights
  split <;> simp_all

/-- showCompletionMessage touches only the tooltip visibility and buttons. -/
theorem showCompletionMessage_eq (s : GuidaState) :
    showCompletionMessage s
      = { s with
            tooltipVisible := if s.tooltip then true else s.tooltipVisible,
            tooltipButtons := if s.tooltip then none else s.tooltipButtons } := by
  obtain ⟨cs, ia, ic, ov, tt, tv, tb, tp, che, csc, rh, sh, bp, st, evs, ps, pc, pst⟩ := s
  unfold showCompletionMessage
  split <;> simp_all

/-- The events produced by complete: the complete emission and the
onComplete callback, appended to the log. -/
theorem complete_events (cfg : Config) (s : GuidaState) :
    (complete cfg s).events = s.events ++ [Ev.complete, Ev.cbComplete] := by
  simp [complete, emit, markAsCompleted, showCompletionMessage_eq, clearHighlights_eq]

/-- complete does not change the step index. -/
theorem complete_currentStep (cfg : Config) (s : GuidaState) :
    (complete cfg s).currentStep = s.currentStep := by
  simp [complete, emit, markAsCompleted, showCompletionMessage_eq, clearHighlights_eq]

/-- complete does not change the active flag. -/
theorem complete_isActive (cfg : Config) (s : GuidaState) :
    (complete cfg s).isActive = s.isActive := by
  simp [complete, emit, markAsCompleted, showCompletionMessage_eq, clearHighlights_eq]

/-- complete writes the persisted completion flag over the former store. -/
theorem complete_store (cfg : Config) (s : GuidaState) :
    (complete cfg s).store = storeSet s.store cfg.storageKey "true" := by
  simp [complete, emit, markAsCompleted, showCompletionMessage_eq, clearHighlights_eq]

/-- highlightElement touches only the highlighted element and the paint. -/
theorem highlightElement_eq (cfg : Config) (env : Env) (target : String)
    (b : Bool) (step : Option OnboardingStep) (s : GuidaState) :
    highlightElement cfg env target b step s
      = { s with
            currentHighlightedElement := if b then some target else none,
            backdropPaint :=
              if b && s.overlay then
                some (updateClipPath cfg step (env.rectOf target) env.viewport)
              else if s.overlay then none
              else s.backdropPaint } := by
  obtain ⟨cs, ia, ic, ov, tt, tv, tb, tp, che, csc, rh, sh, bp, st, evs, ps, pc, pst⟩ := s
  unfold highlightElement
  cases b <;> cases ov <;> simp_all

/-- showTooltip touches only the visibility, buttons and position fields. -/
theorem showTooltip_eq (cfg : Config) (env : Env) (target : String)
    (step : OnboardingStep) (s : GuidaState) :
    showTooltip cfg env target step s
      = { s with
            tooltipVisible := if s.tooltip then true else s.tooltipVisible,
            tooltipButtons :=
              if s.tooltip then some (tooltipButtonFlags cfg s.currentStep step)
              else s.tooltipButtons,
            tooltipPos :=
              if s.tooltip then
                some (computeTooltipPosition (env.rectOf target) step.position
                  320 env.tooltipHeight env.viewport)
              else s.tooltipPos } := by
  obtain ⟨cs, ia, ic, ov, tt, tv, tb, tp, che, csc, rh, sh, bp, st, evs, ps, pc, pst⟩ := s
  unfold showTooltip
  split <;> simp_all

/-- Event counting distributes over appended logs. -/
theorem countStart_append (l1 l2 : List Ev) :
    countStart (l1 ++ l2) = countStart l1 + countStart l2 := by
  simp [countStart]

/-- Callback counting distributes over appended logs. -/
theorem countCbStart_append (l1 l2 : List Ev) :
    countCbStart (l1 ++ l2) = countCbStart l1 + countCbStart l2 := by
  simp [countCbStart]

/-- complete leaves the tooltip node reference alone. -/
theorem complete_tooltip (cfg : Config) (s : GuidaState) :
    (complete cfg s).tooltip = s.tooltip := by
  simp [complete, emit, markAsCompleted, showCompletionMessage_eq, clearHighlights_eq]

/-- nextStep as one record update: increment, hide, log, schedule. -/
theorem nextStep_eq (cfg : Config) (s : GuidaState) :
    nextStep cfg s
      = { s with
            currentStep := s.currentStep + 1,
            tooltipVisible := if s.tooltip then false else s.tooltipVisible,
            events := s.events ++ [Ev.stepNavigation "next" s.currentStep
              (s.currentStep + 1) cfg.steps[s.currentStep]?],
            pendingShows := s.pendingShows + 1 } := by
  unfold nextStep
  simp [hideTooltip_eq, emit]

/-- goToStep in range as one record update. -/
theorem goToStep_eq_inRange (cfg : Config) (k : ℤ) (s : GuidaState)
    (h1 : 0 ≤ k) (h2 : k < (cfg.steps.length : ℤ)) :
    goToStep cfg k s
      = { s with
            currentStep := k.toNat,
            tooltipVisible := if s.tooltip then false else s.tooltipVisible,
            pendingShows := s.pendingShows + 1 } := by
  unfold goToStep
  rw [if_pos ⟨h1, h2⟩]
  simp [hideTooltip_eq]

/-- Past-the-end showStep is exactly complete. -/
theorem showStep_ge (cfg : Config) (env : Env) (i : ℕ) (s : GuidaState)
    (h : cfg.steps.length ≤ i) :
    showStep cfg env i s = complete cfg s := by
  unfold showStep
  rw [dif_neg (by omega)]

/-- In-range showStep with the target present is the render pipeline. -/
theorem showStep_render (cfg : Config) (env : Env) (i : ℕ) (s : GuidaState)
    (h : i < cfg.steps.length)
    (ht : env.hasTarget (cfg.steps.get ⟨i, h⟩).target = true) :
    showStep cfg env i s
      = showTooltip cfg env (cfg.steps.get ⟨i, h⟩).target (cfg.steps.get ⟨i, h⟩)
          (highlightElement cfg env (cfg.steps.get ⟨i, h⟩).target
            (cfg.steps.get ⟨i, h⟩).highlight (some (cfg.steps.get ⟨i, h⟩))
            (emit (.cbStepChange i (cfg.steps.get ⟨i, h⟩))
              (emit (.stepChange i (cfg.steps.get ⟨i, h⟩))
                { s with currentStepConfig := some (cfg.steps.get ⟨i, h⟩) }))) := by
  unfold showStep
  rw [dif_pos h]
  simp only [ht, if_true]

/-- In-range showStep with the target missing warns and auto-advances. -/
theorem showStep_missing (cfg : Config) (env : Env) (i : ℕ) (s : GuidaState)
    (h : i < cfg.steps.length)
    (ht : env.hasTarget (cfg.steps.get ⟨i, h⟩).target = false) :
    showStep cfg env i s
      = nextStep cfg (emit (.warnTargetMissing (cfg.steps.get ⟨i, h⟩).target)
          { s with currentStepConfig := some (cfg.steps.get ⟨i, h⟩) }) := by
  unfold showStep
  rw [dif_pos h]
  simp only [ht, Bool.false_eq_true, if_false]

/-- Observable fields of an in-range render with the target present. -/
theorem showStep_render_fields (cfg : Config) (env : Env) (i : ℕ)
    (s : GuidaState) (h : i < cfg.steps.length)
    (ht : env.hasTarget (cfg.steps.get ⟨i, h⟩).target = true) :
    (showStep cfg env i s).events
      = s.events ++ [Ev.stepChange i (cfg.steps.get ⟨i, h⟩),
                     Ev.cbStepChange i (cfg.steps.get ⟨i, h⟩)] ∧
    (showStep cfg env i s).currentStep = s.currentStep ∧
    (showStep cfg env i s).isActive = s.isActive ∧
    (s.tooltip = true → (showStep cfg env i s).tooltipVisible = true) ∧
    (s.tooltip = true → (showStep cfg env i s).tooltipButtons
        = some (tooltipButtonFlags cfg s.currentStep (cfg.steps.get ⟨i, h⟩))) := by
  rw [showStep_render cfg env i s h ht]
  refine ⟨?_, ?_, ?_, ?_, ?_⟩
  · simp [showTooltip_eq, highlightElement_eq, emit]
  · simp [showTooltip_eq, highlightElement_eq, emit]
  · simp [showTooltip_eq, highlightElement_eq, emit]
  · intro htt
    simp [showTooltip_eq, highlightElement_eq, emit, htt]
  · intro htt
    simp [showTooltip_eq, highlightElement_eq, emit, htt]

/-- showStep never changes the active flag. -/
theorem showStep_isActive (cfg : Config) (env : Env) (i : ℕ) (s : GuidaState) :
    (showStep cfg env i s).isActive = s.isActive := by
  by_cases h : i < cfg.steps.length
  · by_cases ht : env.hasTarget (cfg.steps.get ⟨i, h⟩).target = true
    · exact (showStep_render_fields cfg env i s h ht).2.2.1
    · rw [showStep_missing cfg env i s h (by simpa using ht)]
      simp [nextStep_eq, emit]
  · rw [showStep_ge cfg env i s (by omega)]
    exact complete_isActive cfg s

/-- showStep never changes the tooltip node reference. -/
theorem showStep_tooltip (cfg : Config) (env : Env) (i : ℕ) (s : GuidaState) :
    (showStep cfg env i s).tooltip = s.tooltip := by
  by_cases h : i < cfg.steps.length
  · by_cases ht : env.hasTarget (cfg.steps.get ⟨i, h⟩).target = true
    · rw [showStep_render cfg env i s h ht]
      simp [showTooltip_eq, highlightElement_eq, emit]
    · rw [showStep_missing cfg env i s h (by simpa using ht)]
      simp [nextStep_eq, emit]
  · rw [showStep_ge cfg env i s (by omega)]
    exact complete_tooltip cfg s

/-- showStep never removes or adds start or onStart entries to the log. -/
theorem showStep_counts (cfg : Config) (env : Env) (i : ℕ) (s : GuidaState) :
    countStart (showStep cfg env i s).events = countStart s.events ∧
    countCbStart (showStep cfg env i s).events = countCbStart s.events := by
  by_cases h : i < cfg.steps.length
  · by_cases ht : env.hasTarget (cfg.steps.get ⟨i, h⟩).target = true
    · rw [(showStep_render_fields cfg env i s h ht).1]
      simp [countStart_append, countCbStart_append, countStart, countCbStart,
        startWeight, cbStartWeight]
    · rw [showStep_missing cfg env i s h (by simpa using ht)]
      simp [nextStep_eq, emit, countStart_append, countCbStart_append,
        countStart, countCbStart, startWeight, cbStartWeight]
  · rw [showStep_ge cfg env i s (by omega)]
    rw [complete_events]
    simp [countStart_append, countCbStart_append, countStart, countCbStart,
      startWeight, cbStartWeight]

/-- start is a no-op whenever its guard fires. -/
theorem start_noop_of_guard (cfg : Config) (env : Env) (s : GuidaState)
    (h : s.isActive = true ∨ cfg.steps = []) :
    start cfg env s = s := by
  unfold start
  rcases h with h | h
  · simp [h]
  · simp [h]

/-- start off the guard, as the explicit pipeline of the source. -/
theorem start_pos_eq (cfg : Config) (env : Env) (s : GuidaState)
    (ha : s.isActive = false) (hne : cfg.steps ≠ []) :
    start cfg env s
      = emit .cbStart (emit .start (showStep cfg env 0
          (setupResizeHandler (createOverlay
            { s with isActive := true, currentStep := 0 })))) := by
  unfold start
  have hc : (s.isActive || (cfg.steps.length == 0)) = false := by
    simp [ha, List.length_eq_zero, hne]
  simp only [hc, Bool.false_eq_true, if_false]
  rfl

/-- start off the guard activates the tour. -/
theorem start_isActive_pos (cfg : Config) (env : Env) (s : GuidaState)
    (ha : s.isActive = false) (hne : cfg.steps ≠ []) :
    (start cfg env s).isActive = true := by
  rw [start_pos_eq cfg env s ha hne]
  simp [emit, showStep_isActive, setupResizeHandler, createOverlay]

/-- start off the guard logs exactly one start and one onStart. -/
theorem start_counts_pos (cfg : Config) (env : Env) (s : GuidaState)
    (ha : s.isActive = false) (hne : cfg.steps ≠ []) :
    countStart (start cfg env s).events = countStart s.events + 1 ∧
    countCbStart (start cfg env s).events = countCbStart s.events + 1 := by
  rw [start_pos_eq cfg env s ha hne]
  have h2 := showStep_counts cfg env 0
    (setupResizeHandler (createOverlay { s with isActive := true, currentStep := 0 }))
  constructor
  · simp only [emit, countStart_append, h2.1]
    simp [setupResizeHandler, createOverlay, countStart, startWeight]
  · simp only [emit, countCbStart_append, h2.2]
    simp [setupResizeHandler, createOverlay, countCbStart, cbStartWeight]

/-- C1: for an active tour (overlay and tooltip attached) at index i,
nextStep increments the index unconditionally and hides the tooltip; when
the settle timer fires, an index at or past the step count invokes
complete, and an in-range index with its target present renders step i+1
(tooltip visible again, stepChange and its callback logged); when i was
the last step, the index equals the step count during the delay window. -/
theorem nextStep_sequencer (cfg : Config) (env : Env) (s : GuidaState)
    (hact : s.isActive = true) (htool : s.tooltip = true) :
    (nextStep cfg s).currentStep = s.currentStep + 1 ∧
    (nextStep cfg s).tooltipVisible = false ∧
    (cfg.steps.length ≤ s.currentStep + 1 →
      fireSettle cfg env (nextStep cfg s)
        = complete cfg { nextStep cfg s with
            pendingShows := (nextStep cfg s).pendingShows - 1 }) ∧
    (∀ hlt : s.currentStep + 1 < cfg.steps.length,
      env.hasTarget (cfg.steps.get ⟨s.currentStep + 1, hlt⟩).target = true →
        (fireSettle cfg env (nextStep cfg s)).tooltipVisible = true ∧
        (fireSettle cfg env (nextStep cfg s)).events
          = (nextStep cfg s).events
            ++ [Ev.stepChange (s.currentStep + 1)
                  (cfg.steps.get ⟨s.currentStep + 1, hlt⟩),
                Ev.cbStepChange (s.currentStep + 1)
                  (cfg.steps.get ⟨s.currentStep + 1, hlt⟩)]) ∧
    (s.currentStep + 1 = cfg.steps.length →
      (nextStep cfg s).currentStep = cfg.steps.length) := by
  have h1 : (nextStep cfg s).currentStep = s.currentStep + 1 := by
    simp [nextStep_eq]
  have hfe : fireSettle cfg env (nextStep cfg s)
      = showStep cfg env (s.currentStep + 1)
          { nextStep cfg s with
              pendingShows := (nextStep cfg s).pendingShows - 1 } := by
    exact congrArg (fun n => showStep cfg env n
      { nextStep cfg s with
          pendingShows := (nextStep cfg s).pendingShows - 1 }) h1
  refine ⟨h1, by simp [nextStep_eq, htool], ?_, ?_, ?_⟩
  · intro hge
    rw [hfe]
    exact showStep_ge cfg env (s.currentStep + 1) _ hge
  · intro hlt ht
    rw [hfe]
    have hfs := showStep_render_fields cfg env (s.currentStep + 1)
      { nextStep cfg s with
          pendingShows := (nextStep cfg s).pendingShows - 1 } hlt ht
    have htool2 : ({ nextStep cfg s with
        pendingShows := (nextStep cfg s).pendingShows - 1 } : GuidaState).tooltip
          = true := by
      simp [nextStep_eq, htool]
    exact ⟨hfs.2.2.2.1 htool2, hfs.1⟩
  · intro h2
    rw [h1, h2]

/-- Witness for nextStep_sequencer: a concrete active state at index 0 of
the two-step configuration advances to index 1 with the tooltip hidden. -/
theorem nextStep_sequencer_witness :
    exActiveState.isActive = true ∧ exActiveState.tooltip = true ∧
    (nextStep exCfg exActiveState).currentStep
      = exActiveState.currentStep + 1 ∧
    (nextStep exCfg exActiveState).tooltipVisible = false :=
  ⟨rfl, rfl, (nextStep_sequencer exCfg exEnv exActiveState rfl rfl).1,
    (nextStep_sequencer exCfg exEnv exActiveState rfl rfl).2.1⟩

/-- C2: start is a no-op whenever the tour is already active or the step
list is empty (the state is unchanged, so the start event never fires and
an instance started on no steps keeps its inactive flag); off the guard it
activates the tour, leaves the index at 0 when the first target is
present, fires start and onStart exactly once, and a second consecutive
start adds no further start event. -/
theorem start_state_machine (cfg : Config) (env : Env) (s : GuidaState)
    (ha : s.isActive = false) (hne : cfg.steps ≠ []) :
    (∀ s2 : GuidaState, s2.isActive = true ∨ cfg.steps = [] →
      start cfg env s2 = s2) ∧
    (∀ (cfgE : Config) (s2 : GuidaState), cfgE.steps = [] →
      (start cfgE env s2).isActive = s2.isActive ∧
      countStart (start cfgE env s2).events = countStart s2.events) ∧
    (start cfg env s).isActive = true ∧
    countStart (start cfg env s).events = countStart s.events + 1 ∧
    countCbStart (start cfg env s).events = countCbStart s.events + 1 ∧
    countStart (start cfg env (start cfg env s)).events
      = countStart s.events + 1 ∧
    (∀ hlt : 0 < cfg.steps.length,
      env.hasTarget (cfg.steps.get ⟨0, hlt⟩).target = true →
      (start cfg env s).currentStep = 0) := by
  refine ⟨fun s2 h => start_noop_of_guard cfg env s2 h, ?_, ?_, ?_, ?_, ?_, ?_⟩
  · intro cfgE s2 hE
    rw [start_noop_of_guard cfgE env s2 (Or.inr hE)]
    exact ⟨rfl, rfl⟩
  · exact start_isActive_pos cfg env s ha hne
  · exact (start_counts_pos cfg env s ha hne).1
  · exact (start_counts_pos cfg env s ha hne).2
  · rw [start_noop_of_guard cfg env (start cfg env s)
      (Or.inl (start_isActive_pos cfg env s ha hne))]
    exact (start_counts_pos cfg env s ha hne).1
  · intro hlt ht
    rw [start_pos_eq cfg env s ha hne]
    have hfs := showStep_render_fields cfg env 0
      (setupResizeHandler (createOverlay
        { s with isActive := true, currentStep := 0 })) hlt ht
    simp only [emit]
    exact hfs.2.1

/-- Witness for start_state_machine: starting the fresh two-step instance
activates it, logs one start event, and keeps the index at 0. -/
theorem start_state_machine_witness :
    (initState []).isActive = false ∧ exCfg.steps ≠ [] ∧
    (start exCfg exEnv (initState [])).isActive = true ∧
    countStart (start exCfg exEnv (start exCfg exEnv (initState []))).events
      = countStart (initState []).events + 1 ∧
    (start exCfg exEnv (initState [])).currentStep = 0 :=
  ⟨rfl, by decide,
    (start_state_machine exCfg exEnv (initState []) rfl (by decide)).2.2.1,
    (start_state_machine exCfg exEnv (initState []) rfl
      (by decide)).2.2.2.2.2.1,
    (start_state_machine exCfg exEnv (initState []) rfl
      (by decide)).2.2.2.2.2.2 (by decide) rfl⟩

/-- C5: previousStep at index 0 is a no-op (state unchanged, nothing
scheduled); goToStep is a no-op outside [0, stepCount); inside the range
it jumps to the index, schedules one settle render, and that render logs
stepChange for the requested step when its target is present. -/
theorem navigation_bounds (cfg : Config) (env : Env) :
    (∀ s : GuidaState, s.currentStep = 0 → previousStep cfg s = s) ∧
    (∀ (s : GuidaState) (k : ℤ), k < 0 ∨ (cfg.steps.length : ℤ) ≤ k →
      goToStep cfg k s = s) ∧
    (∀ (s : GuidaState) (k : ℤ), 0 ≤ k → k < (cfg.steps.length : ℤ) →
      (goToStep cfg k s).currentStep = k.toNat ∧
      (goToStep cfg k s).pendingShows = s.pendingShows + 1 ∧
      (∀ hlt : k.toNat < cfg.steps.length,
        env.hasTarget (cfg.steps.get ⟨k.toNat, hlt⟩).target = true →
        (fireSettle cfg env (goToStep cfg k s)).events
          = (goToStep cfg k s).events
            ++ [Ev.stepChange k.toNat (cfg.steps.get ⟨k.toNat, hlt⟩),
                Ev.cbStepChange k.toNat (cfg.steps.get ⟨k.toNat, hlt⟩)])) := by
  refine ⟨?_, ?_, ?_⟩
  · intro s h
    unfold previousStep
    simp [h]
  · intro s k hk
    unfold goToStep
    rw [if_neg]
    rintro ⟨h1, h2⟩
    rcases hk with hk | hk <;> omega
  · intro s k h1 h2
    have hG : (goToStep cfg k s).currentStep = k.toNat := by
      rw [goToStep_eq_inRange cfg k s h1 h2]
    refine ⟨hG, by rw [goToStep_eq_inRange cfg k s h1 h2], ?_⟩
    intro hlt ht
    have hfe : fireSettle cfg env (goToStep cfg k s)
        = showStep cfg env k.toNat
            { goToStep cfg k s with
                pendingShows := (goToStep cfg k s).pendingShows - 1 } := by
      exact congrArg (fun n => showStep cfg env n
        { goToStep cfg k s with
            pendingShows := (goToStep cfg k s).pendingShows - 1 }) hG
    rw [hfe]
    exact (showStep_render_fields cfg env k.toNat
      { goToStep cfg k s with
          pendingShows := (goToStep cfg k s).pendingShows - 1 } hlt ht).1

/-- Witness for navigation_bounds: on the two-step configuration,
previousStep at 0 and goToStep 5 are no-ops, goToStep 1 reaches index 1. -/
theorem navigation_bounds_witness :
    previousStep exCfg (initState []) = initState [] ∧
    goToStep exCfg 5 (initState []) = initState [] ∧
    goToStep exCfg (-1) (initState []) = initState [] ∧
    (goToStep exCfg 1 (initState [])).currentStep = 1 :=
  ⟨(navigation_bounds exCfg exEnv).1 (initState []) rfl,
    (navigation_bounds exCfg exEnv).2.1 (initState []) 5 (Or.inr (by decide)),
    (navigation_bounds exCfg exEnv).2.1 (initState []) (-1) (Or.inl (by decide)),
    ((navigation_bounds exCfg exEnv).2.2 (initState []) 1 (by decide)
      (by decide)).1⟩

/-- Construction never alters the persisted store. -/
theorem construct_store (cfg : Config) (st : List (String × String)) :
    (construct cfg st).store = st := by
  by_cases h : (cfg.autoStart && !(isCompleted cfg (initState st))) = true
  · simp only [construct, if_pos h]
    rfl
  · simp only [construct, if_neg h]
    rfl

/-- C6: complete persists the completion flag under the configured storage
key, so isCompleted is true both on the same instance and immediately on a
fresh instance constructed over the same store with the same key; reset
clears the flag, so a fresh instance reports isCompleted false. -/
theorem completion_flag_persistence (cfg cfg2 : Config) (s : GuidaState)
    (hkey : cfg2.storageKey = cfg.storageKey) :
    storeGet (complete cfg s).store cfg.storageKey = some "true" ∧
    isCompleted cfg (complete cfg s) = true ∧
    isCompleted cfg2 (construct cfg2 (complete cfg s).store) = true ∧
    isCompleted cfg (reset cfg s) = false ∧
    isCompleted cfg2 (construct cfg2 (reset cfg s).store) = false := by
  refine ⟨?_, ?_, ?_, ?_, ?_⟩
  · rw [complete_store]
    exact storeGet_storeSet_self s.store cfg.storageKey "true"
  · simp [isCompleted, complete_store, storeGet_storeSet_self]
  · simp [isCompleted, construct_store, hkey, complete_store,
      storeGet_storeSet_self]
  · simp [isCompleted, reset, storeGet_storeRemove_self]
  · simp [isCompleted, construct_store, hkey, reset,
      storeGet_storeRemove_self]

/-- Witness for completion_flag_persistence on the concrete configuration
and a fresh state. -/
theorem completion_flag_persistence_witness :
    exCfg.storageKey = exCfg.storageKey ∧
    isCompleted exCfg (complete exCfg (initState [])) = true ∧
    isCompleted exCfg (construct exCfg (reset exCfg (initState [])).store)
      = false :=
  ⟨rfl,
    (completion_flag_persistence exCfg exCfg (initState []) rfl).2.1,
    (completion_flag_persistence exCfg exCfg (initState []) rfl).2.2.2.2⟩

/-- C7: for a rendered step at index idx, the previous button shows iff
the step is not the first, the next button iff the action is observe and
the step is not the last, the skip button iff the step is skipable, and
the close button always; showTooltip stores exactly these flags. -/
theorem tooltip_button_visibility (cfg : Config) (step : OnboardingStep)
    (idx : ℕ) (hidx : idx < cfg.steps.length) :
    ((tooltipButtonFlags cfg idx step).previous = true ↔ ¬ idx = 0) ∧
    ((tooltipButtonFlags cfg idx step).next = true ↔
      (step.action = .observe ∧ ¬ idx = cfg.steps.length - 1)) ∧
    (tooltipButtonFlags cfg idx step).skip = step.skipable ∧
    (tooltipButtonFlags cfg idx step).close = true ∧
    (∀ (env : Env) (t : String) (s : GuidaState), s.tooltip = true →
      s.currentStep = idx →
      (showTooltip cfg env t step s).tooltipButtons
        = some (tooltipButtonFlags cfg idx step)) := by
  refine ⟨?_, ?_, rfl, rfl, ?_⟩
  · simp [tooltipButtonFlags]
  · simp [tooltipButtonFlags]
  · intro env t s ht hc
    simp [showTooltip_eq, ht, hc]

/-- Witness for tooltip_button_visibility at the last step of the concrete
two-step configuration. -/
theorem tooltip_button_visibility_witness :
    1 < exCfg.steps.length ∧
    (tooltipButtonFlags exCfg 1 exStep2).skip = exStep2.skipable ∧
    ((tooltipButtonFlags exCfg 1 exStep2).previous = true ↔ ¬ (1 : ℕ) = 0) :=
  ⟨by decide,
    (tooltip_button_visibility exCfg exStep2 1 (by decide)).2.2.1,
    (tooltip_button_visibility exCfg exStep2 1 (by decide)).1⟩

/-- C8 (amended): cleanup resets the active flag, the overlay, tooltip and
highlighted-element references, and both listeners, but leaves the step
index unchanged; after close, getCurrentStep reports the index the tour
had when it was closed, not the initial 0. -/
theorem cleanup_state_reset (cfg : Config) (s : GuidaState) :
    (cleanup s).isActive = false ∧
    (cleanup s).overlay = false ∧
    (cleanup s).tooltip = false ∧
    (cleanup s).currentHighlightedElement = none ∧
    (cleanup s).currentStepConfig = none ∧
    (cleanup s).resizeHandler = false ∧
    (cleanup s).scrollHandler = false ∧
    (cleanup s).currentStep = s.currentStep ∧
    (close cfg s).currentStep = s.currentStep ∧
    (getCurrentStep cfg (close cfg s)).1 = s.currentStep := by
  unfold close cleanup getCurrentStep
  refine ⟨?_, ?_, ?_, ?_, ?_, ?_, ?_, ?_, ?_, ?_⟩ <;>
    simp [clearHighlights_eq, emit, markAsCompleted]

/-- C8 counterexample: start the concrete two-step tour, advance once
(index 1), then close; getCurrentStep reports index 1, not 0 as the claim
asserts of the post-close state. -/
theorem cleanup_resets_index_counterexample :
    (getCurrentStep exCfg (close exCfg (nextStep exCfg
        (start exCfg exEnv (initState []))))).1 = 1 ∧
    ¬ (getCurrentStep exCfg (close exCfg (nextStep exCfg
        (start exCfg exEnv (initState []))))).1 = 0 := by
  constructor
  · rfl
  · decide

/-- C10: close has no active-tour guard: for every state, including
inactive ones, close persists the completion flag, fires the close event
and the onClose callback, and leaves the instance inactive. -/
theorem close_without_guard (cfg : Config) (s : GuidaState) :
    (close cfg s).isActive = false ∧
    isCompleted cfg (close cfg s) = true ∧
    storeGet (close cfg s).store cfg.storageKey = some "true" ∧
    (close cfg s).events = s.events ++ [Ev.close, Ev.cbClose] := by
  unfold close cleanup
  refine ⟨?_, ?_, ?_, ?_⟩ <;>
    simp [clearHighlights_eq, emit, markAsCompleted, isCompleted,
      storeGet_storeSet_self]

end Guida
